import Mathlib

/-!
Verification of the provisioning state machine of `ironic/common/states.py`.

The module `ironic/common/states.py` builds a process-wide finite state
machine: it registers four stable states, six transitional states (each with
a target state), attaches the same pair of logging watchers (`on_exit`,
`on_enter`) to every state, and registers twenty-three transitions.

The engine class `fsm.FSM` lives in `ironic/common/fsm.py`, which is not part
of the sources at hand; its operations (`add_state`, `add_transition`,
`is_valid_state`, `is_stable`, `target_for`, `is_valid_event`,
`process_event`, `target_state_for`) are therefore modelled from the spec,
sections 4.1 and 4.2.  Watchers are side-effect-only logging callbacks, so
they are embedded as presence flags plus an explicit invocation trace
returned by `process_event`.
-/

/-- State name constant MANAGEABLE of states.py. -/
def MANAGEABLE : String := "manageable"

/-- State name constant AVAILABLE of states.py. -/
def AVAILABLE : String := "available"

/-- State name constant ACTIVE of states.py. -/
def ACTIVE : String := "active"

/-- State name constant DEPLOYWAIT of states.py. -/
def DEPLOYWAIT : String := "wait call-back"

/-- State name constant DEPLOYING of states.py. -/
def DEPLOYING : String := "deploying"

/-- State name constant DEPLOYFAIL of states.py. -/
def DEPLOYFAIL : String := "deploy failed"

/-- State name constant DEPLOYDONE of states.py (never registered). -/
def DEPLOYDONE : String := "deploy complete"

/-- State name constant DELETING of states.py. -/
def DELETING : String := "deleting"

/-- State name constant DELETED of states.py (never registered). -/
def DELETED : String := "deleted"

/-- State name constant ERROR of states.py. -/
def ERROR : String := "error"

/-- State name constant INSPECTING of states.py. -/
def INSPECTING : String := "inspecting"

/-- State name constant INSPECTFAIL of states.py. -/
def INSPECTFAIL : String := "inspect failed"

/-- Event name constants: the event strings passed to add_transition in
states.py. -/
def EVT_PROVIDE : String := "provide"

/-- Event string of states.py. -/
def EVT_MANAGE : String := "manage"

/-- Event string of states.py. -/
def EVT_DEPLOY : String := "deploy"

/-- Event string of states.py. -/
def EVT_FAIL : String := "fail"

/-- Event string of states.py. -/
def EVT_REBUILD : String := "rebuild"

/-- Event string of states.py. -/
def EVT_WAIT : String := "wait"

/-- Event string of states.py. -/
def EVT_RESUME : String := "resume"

/-- Event string of states.py. -/
def EVT_DONE : String := "done"

/-- Event string of states.py. -/
def EVT_DELETE : String := "delete"

/-- Event string of states.py. -/
def EVT_ERROR : String := "error"

/-- Event string of states.py. -/
def EVT_INSPECT : String := "inspect"

/-- Modelled from the spec: the error taxonomy of section 7 for the missing
engine module ironic/common/fsm.py. -/
inductive FsmError where
  | duplicateState
  | duplicateTransition
  | unknownState
  | invalidState
  | invalidEvent
deriving DecidableEq

/-- A registered state: name, stable flag, optional target state, and the
presence of the on_enter and on_exit watchers.  In states.py every add_state
call passes the shared watchers dict holding both callbacks. -/
structure StateInfo where
  name : String
  stable : Bool
  target : Option String
  hasOnEnter : Bool
  hasOnExit : Bool
deriving DecidableEq

/-- Modelled from the spec: the engine holds a state registry and a
transition table mapping (source, event) to destination.  Transitions are
kept as (source, event, destination) triples in registration order. -/
structure FSM where
  states : List StateInfo
  transitions : List (String × String × String)
deriving DecidableEq

/-- Modelled from the spec: `is_valid_state(name) -> bool` of section 4.1. -/
def FSM.is_valid_state (m : FSM) (name : String) : Bool :=
  m.states.any (fun st => st.name == name)

/-- Registry lookup helper: the StateInfo registered under a name, if any. -/
def FSM.findState (m : FSM) (name : String) : Option StateInfo :=
  m.states.find? (fun st => st.name == name)

/-- Modelled from the spec: `add_state` of section 4.1; fails with
DuplicateStateError if the name is already registered. -/
def FSM.add_state (m : FSM) (name : String) (stable : Bool)
    (target : Option String) (onEnter : Bool) (onExit : Bool) :
    Except FsmError FSM :=
  if m.is_valid_state name then Except.error FsmError.duplicateState
  else Except.ok ⟨m.states ++ [⟨name, stable, target, onEnter, onExit⟩], m.transitions⟩

/-- Destination registered for a (source, event) pair, if any. -/
def FSM.lookupTransition (m : FSM) (source event : String) : Option String :=
  (m.transitions.find? (fun t => t.1 == source && t.2.1 == event)).map (fun t => t.2.2)

/-- Modelled from the spec: `is_valid_event(source, event) -> bool` of
section 4.2 - true iff a transition exists from source for event. -/
def FSM.is_valid_event (m : FSM) (source event : String) : Bool :=
  (m.lookupTransition source event).isSome

/-- Modelled from the spec: `add_transition` of section 4.2.  Fails with
UnknownStateError if source or destination is unregistered; fails with
DuplicateTransitionError if (source, event) is already mapped to a different
destination; re-registration to the same destination is a no-op. -/
def FSM.add_transition (m : FSM) (source dest event : String) :
    Except FsmError FSM :=
  if !(m.is_valid_state source) || !(m.is_valid_state dest) then
    Except.error FsmError.unknownState
  else
    match m.lookupTransition source event with
    | some d => if d == dest then Except.ok m
                else Except.error FsmError.duplicateTransition
    | none => Except.ok ⟨m.states, m.transitions ++ [(source, event, dest)]⟩

/-- Modelled from the spec: `is_stable(name)` of section 4.1; fails with
UnknownStateError if the name is unregistered. -/
def FSM.is_stable (m : FSM) (name : String) : Except FsmError Bool :=
  match m.findState name with
  | some st => Except.ok st.stable
  | none => Except.error FsmError.unknownState

/-- Modelled from the spec: `target_for(name) -> State|None` of
section 4.1. -/
def FSM.target_for (m : FSM) (name : String) : Option String :=
  match m.findState name with
  | some st => st.target
  | none => none

/-- Watcher phase: exit of the old state or entry of the new one. -/
inductive Phase where
  | exitPhase
  | enterPhase
deriving DecidableEq

/-- One watcher invocation: which watcher fired and the (state, event) pair
it received. -/
structure WatcherCall where
  phase : Phase
  state : String
  event : String
deriving DecidableEq

/-- Modelled from the spec: `process_event(current_state, event)` of
section 4.2, steps 1-6.  Step 1 fails with InvalidStateError if the current
state is unregistered; step 2 fails with InvalidEventError if no transition
is registered for (current_state, event); steps 3-6 run the on_exit watcher
of the current state, compute the destination, run the on_enter watcher of
the destination, and return it.  The result pairs the outcome with the
ordered trace of watcher invocations; on either failure the trace is empty
because the checks precede every watcher call. -/
def FSM.process_event (m : FSM) (current event : String) :
    Except FsmError String × List WatcherCall :=
  match m.findState current with
  | none => (Except.error FsmError.invalidState, [])
  | some src =>
    match m.lookupTransition current event with
    | none => (Except.error FsmError.invalidEvent, [])
    | some dest =>
      let exitCalls := if src.hasOnExit then [⟨Phase.exitPhase, current, event⟩] else []
      let enterCalls :=
        match m.findState dest with
        | some d => if d.hasOnEnter then [⟨Phase.enterPhase, dest, event⟩] else []
        | none => []
      (Except.ok dest, exitCalls ++ enterCalls)

/-- Modelled from the spec: `target_state_for(destination, explicit_target)`
of section 4.2 - returns the explicit target unchanged when given, else the
registry target of the destination. -/
def FSM.target_state_for (m : FSM) (dest : String) (explicit : Option String) :
    Option String :=
  match explicit with
  | some t => some t
  | none => m.target_for dest

/-- A node as referenced by the spec, section 3: current provision state and
optional target provision state. -/
structure Node where
  provision_state : String
  target_provision_state : Option String
deriving DecidableEq

/-- Modelled from the spec: the caller persists the destination returned by
process_event (and the computed target state); on any process_event failure
the node is left untouched - the failure semantics of section 4.2. -/
def applyEvent (m : FSM) (node : Node) (event : String) : Node :=
  match m.process_event node.provision_state event with
  | (Except.ok dest, _) => ⟨dest, m.target_state_for dest node.target_provision_state⟩
  | (Except.error _, _) => node

/-- The machine of states.py, built by replaying its add_state and
add_transition calls in source order (lines 183-277).  Every add_state call
in states.py passes the shared watchers dict carrying both on_exit and
on_enter, hence the two true flags. -/
def machine : Except FsmError FSM := do
  let m : FSM := ⟨[], []⟩
  let m ← m.add_state MANAGEABLE true none true true
  let m ← m.add_state AVAILABLE true none true true
  let m ← m.add_state ACTIVE true none true true
  let m ← m.add_state ERROR true none true true
  let m ← m.add_transition MANAGEABLE AVAILABLE EVT_PROVIDE
  let m ← m.add_transition AVAILABLE MANAGEABLE EVT_MANAGE
  let m ← m.add_state DEPLOYING false (some ACTIVE) true true
  let m ← m.add_state DEPLOYWAIT false (some ACTIVE) true true
  let m ← m.add_state DEPLOYFAIL false (some ACTIVE) true true
  let m ← m.add_state DELETING false (some AVAILABLE) true true
  let m ← m.add_transition AVAILABLE DEPLOYING EVT_DEPLOY
  let m ← m.add_state INSPECTING false (some MANAGEABLE) true true
  let m ← m.add_state INSPECTFAIL false (some MANAGEABLE) true true
  let m ← m.add_transition DEPLOYING DEPLOYFAIL EVT_FAIL
  let m ← m.add_transition DEPLOYFAIL DEPLOYING EVT_REBUILD
  let m ← m.add_transition DEPLOYFAIL DEPLOYING EVT_DEPLOY
  let m ← m.add_transition DEPLOYING DEPLOYWAIT EVT_WAIT
  let m ← m.add_transition DEPLOYWAIT DEPLOYING EVT_RESUME
  let m ← m.add_transition DEPLOYWAIT DEPLOYFAIL EVT_FAIL
  let m ← m.add_transition DEPLOYING ACTIVE EVT_DONE
  let m ← m.add_transition ACTIVE DEPLOYING EVT_REBUILD
  let m ← m.add_transition ACTIVE DELETING EVT_DELETE
  let m ← m.add_transition DEPLOYWAIT DELETING EVT_DELETE
  let m ← m.add_transition DEPLOYFAIL DELETING EVT_DELETE
  let m ← m.add_transition DELETING AVAILABLE EVT_DONE
  let m ← m.add_transition DELETING ERROR EVT_ERROR
  let m ← m.add_transition ERROR DEPLOYING EVT_REBUILD
  let m ← m.add_transition ERROR DELETING EVT_DELETE
  let m ← m.add_transition MANAGEABLE INSPECTING EVT_INSPECT
  let m ← m.add_transition INSPECTING MANAGEABLE EVT_DONE
  let m ← m.add_transition INSPECTING INSPECTFAIL EVT_FAIL
  let m ← m.add_transition INSPECTFAIL MANAGEABLE EVT_MANAGE
  let m ← m.add_transition INSPECTFAIL INSPECTING EVT_INSPECT
  return m

/-- The successfully built machine of states.py (the build raises no
configuration error, as machine_builds below records). -/
def machineOk : FSM :=
  match machine with
  | Except.ok m => m
  | Except.error _ => ⟨[], []⟩

deriving instance DecidableEq for Except

theorem machine_builds : machine = Except.ok machineOk := by decide

/-- The 23-row transition table of spec section 4.2, in the order the spec
lists it, with the table's short state names mapped to the state name
constants of states.py (the spec allows renaming; `inspectfail` is
INSPECTFAIL, `deploywait` is DEPLOYWAIT, `deployfail` is DEPLOYFAIL).
Rows are (source, event, destination). -/
def specTable : List (String × String × String) :=
  [ (MANAGEABLE, EVT_PROVIDE, AVAILABLE)
  , (AVAILABLE, EVT_MANAGE, MANAGEABLE)
  , (AVAILABLE, EVT_DEPLOY, DEPLOYING)
  , (MANAGEABLE, EVT_INSPECT, INSPECTING)
  , (INSPECTING, EVT_DONE, MANAGEABLE)
  , (INSPECTING, EVT_FAIL, INSPECTFAIL)
  , (INSPECTFAIL, EVT_MANAGE, MANAGEABLE)
  , (INSPECTFAIL, EVT_INSPECT, INSPECTING)
  , (DEPLOYING, EVT_FAIL, DEPLOYFAIL)
  , (DEPLOYFAIL, EVT_REBUILD, DEPLOYING)
  , (DEPLOYFAIL, EVT_DEPLOY, DEPLOYING)
  , (DEPLOYING, EVT_WAIT, DEPLOYWAIT)
  , (DEPLOYWAIT, EVT_RESUME, DEPLOYING)
  , (DEPLOYWAIT, EVT_FAIL, DEPLOYFAIL)
  , (DEPLOYING, EVT_DONE, ACTIVE)
  , (ACTIVE, EVT_REBUILD, DEPLOYING)
  , (ACTIVE, EVT_DELETE, DELETING)
  , (DEPLOYWAIT, EVT_DELETE, DELETING)
  , (DEPLOYFAIL, EVT_DELETE, DELETING)
  , (DELETING, EVT_DONE, AVAILABLE)
  , (DELETING, EVT_ERROR, ERROR)
  , (ERROR, EVT_REBUILD, DEPLOYING)
  , (ERROR, EVT_DELETE, DELETING) ]

/-- An arbitrary name that states.py never registers, used as concrete
stale-node input. -/
def BOGUS : String := "bogus"

theorem isValidState_iff_findState (m : FSM) (s : String) :
    m.is_valid_state s = true ↔ (m.findState s).isSome = true := by
  simp [FSM.is_valid_state, FSM.findState]

theorem findState_eq_none (m : FSM) (s : String)
    (h : m.is_valid_state s = false) : m.findState s = none := by
  cases hf : m.findState s with
  | none => rfl
  | some st =>
    have ht : m.is_valid_state s = true :=
      (isValidState_iff_findState m s).mpr (by rw [hf]; rfl)
    rw [ht] at h
    cases h

theorem processEvent_invalidState (m : FSM) (s e : String)
    (h : m.is_valid_state s = false) :
    m.process_event s e = (Except.error FsmError.invalidState, []) := by
  have hf : m.findState s = none := findState_eq_none m s h
  simp [FSM.process_event, hf]

theorem processEvent_invalidEvent (m : FSM) (s e : String)
    (hs : m.is_valid_state s = true) (he : m.is_valid_event s e = false) :
    m.process_event s e = (Except.error FsmError.invalidEvent, []) := by
  cases hf : m.findState s with
  | none =>
    rw [isValidState_iff_findState, hf] at hs
    cases hs
  | some st =>
    cases hl : m.lookupTransition s e with
    | none => simp [FSM.process_event, hf, hl]
    | some d =>
      unfold FSM.is_valid_event at he
      rw [hl] at he
      cases he

/-- C1: the registered transition relation is exactly the 23-row table of
spec section 4.2 - every listed (source, event) pair is a valid event whose
process_event outcome is the listed destination, and every registered
transition is a row of the table. -/
theorem C1_transition_table_exact :
    (∀ r ∈ specTable, machineOk.is_valid_event r.1 r.2.1 = true ∧
        (machineOk.process_event r.1 r.2.1).1 = Except.ok r.2.2) ∧
    (∀ t ∈ machineOk.transitions, t ∈ specTable) := by
  decide

theorem C1_witness :
    machineOk.is_valid_event AVAILABLE EVT_DEPLOY = true ∧
    (machineOk.process_event AVAILABLE EVT_DEPLOY).1 = Except.ok DEPLOYING :=
  C1_transition_table_exact.1 (AVAILABLE, EVT_DEPLOY, DEPLOYING) (by decide)

/-- C2: for every registered transition (source, event, destination),
process_event returns exactly the destination and the watcher trace is the
on_exit call of the source followed by the on_enter call of the destination,
each receiving the respective state and the event. -/
theorem C2_watcher_order :
    ∀ t ∈ machineOk.transitions,
      machineOk.process_event t.1 t.2.1 =
        (Except.ok t.2.2,
         [⟨Phase.exitPhase, t.1, t.2.1⟩, ⟨Phase.enterPhase, t.2.2, t.2.1⟩]) := by
  decide

theorem C2_witness :
    machineOk.process_event MANAGEABLE EVT_PROVIDE =
      (Except.ok AVAILABLE,
       [⟨Phase.exitPhase, MANAGEABLE, EVT_PROVIDE⟩,
        ⟨Phase.enterPhase, AVAILABLE, EVT_PROVIDE⟩]) :=
  C2_watcher_order (MANAGEABLE, EVT_PROVIDE, AVAILABLE) (by decide)

/-- C3: a registered state is stable exactly when it is one of manageable,
available, active, error; every other registered state reports false. -/
theorem C3_stable_iff :
    ∀ st ∈ machineOk.states,
      machineOk.is_stable st.name =
        Except.ok (st.name == MANAGEABLE || st.name == AVAILABLE ||
                   st.name == ACTIVE || st.name == ERROR) := by
  decide

theorem C3_witness :
    machineOk.is_stable DEPLOYING =
      Except.ok (DEPLOYING == MANAGEABLE || DEPLOYING == AVAILABLE ||
                 DEPLOYING == ACTIVE || DEPLOYING == ERROR) :=
  C3_stable_iff ⟨DEPLOYING, false, some ACTIVE, true, true⟩ (by decide)

/-- C4: target_for is active for deploying, deploy-wait and deploy-failed,
available for deleting, manageable for inspecting and inspect-failed, and
none for each of the four stable states. -/
theorem C4_targets :
    machineOk.target_for DEPLOYING = some ACTIVE ∧
    machineOk.target_for DEPLOYWAIT = some ACTIVE ∧
    machineOk.target_for DEPLOYFAIL = some ACTIVE ∧
    machineOk.target_for DELETING = some AVAILABLE ∧
    machineOk.target_for INSPECTING = some MANAGEABLE ∧
    machineOk.target_for INSPECTFAIL = some MANAGEABLE ∧
    machineOk.target_for MANAGEABLE = none ∧
    machineOk.target_for AVAILABLE = none ∧
    machineOk.target_for ACTIVE = none ∧
    machineOk.target_for ERROR = none := by
  decide

/-- C5: for every (source, event) pair with no registered transition, with
source a registered state, process_event fails with InvalidEventError and
invokes no watcher (the trace is empty); in particular the manage event from
the active state fails that way. -/
theorem C5_invalid_event :
    (∀ s e, machineOk.is_valid_state s = true →
        machineOk.is_valid_event s e = false →
        machineOk.process_event s e = (Except.error FsmError.invalidEvent, [])) ∧
    machineOk.process_event ACTIVE EVT_MANAGE = (Except.error FsmError.invalidEvent, []) := by
  exact ⟨fun s e hs he => processEvent_invalidEvent machineOk s e hs he, by decide⟩

theorem C5_witness :
    machineOk.process_event ACTIVE EVT_MANAGE = (Except.error FsmError.invalidEvent, []) :=
  C5_invalid_event.1 ACTIVE EVT_MANAGE (by decide) (by decide)

/-- C6: process_event with an unregistered current state fails with
InvalidStateError and invokes no watcher, and on every process_event failure
the node the caller would persist is left unchanged (the engine is a pure
function of its tables, which it never mutates). -/
theorem C6_invalid_state_no_mutation :
    (∀ s e, machineOk.is_valid_state s = false →
        machineOk.process_event s e = (Except.error FsmError.invalidState, [])) ∧
    (∀ (node : Node) (e : String) (err : FsmError),
        (machineOk.process_event node.provision_state e).1 = Except.error err →
        applyEvent machineOk node e = node) := by
  constructor
  · intro s e hs
    exact processEvent_invalidState machineOk s e hs
  · intro node e err h
    cases hp : machineOk.process_event node.provision_state e with
    | mk r calls =>
      cases r with
      | ok d =>
        rw [hp] at h
        cases h
      | error fe =>
        simp [applyEvent, hp]

theorem C6_witness :
    machineOk.process_event BOGUS EVT_DEPLOY = (Except.error FsmError.invalidState, []) ∧
    applyEvent machineOk ⟨BOGUS, none⟩ EVT_DEPLOY = ⟨BOGUS, none⟩ :=
  ⟨C6_invalid_state_no_mutation.1 BOGUS EVT_DEPLOY (by decide),
   C6_invalid_state_no_mutation.2 ⟨BOGUS, none⟩ EVT_DEPLOY FsmError.invalidState (by decide)⟩

theorem isValidState_congr (m m2 : FSM) (h : m2.states = m.states) (x : String) :
    m2.is_valid_state x = m.is_valid_state x := by
  unfold FSM.is_valid_state
  rw [h]

theorem addTransition_ok (m m2 : FSM) (s d e : String)
    (h : m.add_transition s d e = Except.ok m2) :
    m2.states = m.states ∧ m.is_valid_state s = true ∧ m.is_valid_state d = true ∧
      m2.lookupTransition s e = some d := by
  unfold FSM.add_transition at h
  split at h
  · cases h
  · next hv =>
    simp only [Bool.or_eq_true, Bool.not_eq_true', not_or] at hv
    obtain ⟨hvs, hvd⟩ := hv
    rw [Bool.not_eq_false] at hvs hvd
    split at h
    · next d0 hl =>
      split at h
      · next hd =>
        cases h
        exact ⟨rfl, hvs, hvd, by rw [hl, eq_of_beq hd]⟩
      · cases h
    · next hl =>
      cases h
      refine ⟨rfl, hvs, hvd, ?_⟩
      unfold FSM.lookupTransition at hl ⊢
      cases hfind : m.transitions.find? (fun t => t.1 == s && t.2.1 == e) with
      | some t0 => rw [hfind] at hl; cases hl
      | none =>
        simp only [List.find?_append, hfind, Option.none_or]
        simp [List.find?]

/-- C7: once add_transition has succeeded for (s, d, e), calling it again
with identical arguments succeeds without changing the machine, while
calling it with the same (s, e) but a different registered destination fails
with DuplicateTransitionError. -/
theorem C7_idempotent_registration :
    ∀ (m m2 : FSM) (s d e : String), m.add_transition s d e = Except.ok m2 →
      m2.add_transition s d e = Except.ok m2 ∧
      ∀ d2, m2.is_valid_state d2 = true → d2 ≠ d →
        m2.add_transition s d2 e = Except.error FsmError.duplicateTransition := by
  intro m m2 s d e h
  obtain ⟨hst, hvs, hvd, hlk⟩ := addTransition_ok m m2 s d e h
  have hvs2 : m2.is_valid_state s = true := by
    rw [isValidState_congr m m2 hst s]
    exact hvs
  have hvd2 : m2.is_valid_state d = true := by
    rw [isValidState_congr m m2 hst d]
    exact hvd
  constructor
  · simp [FSM.add_transition, hvs2, hvd2, hlk]
  · intro d2 hv2 hne
    have hbd : (d == d2) = false := beq_eq_false_iff_ne.mpr (fun hh => hne hh.symm)
    simp [FSM.add_transition, hvs2, hv2, hlk, hbd]

theorem C7_witness :
    machineOk.add_transition AVAILABLE DEPLOYING EVT_DEPLOY = Except.ok machineOk ∧
    machineOk.add_transition AVAILABLE MANAGEABLE EVT_DEPLOY =
      Except.error FsmError.duplicateTransition := by
  have h := C7_idempotent_registration machineOk machineOk AVAILABLE DEPLOYING EVT_DEPLOY
    (by decide)
  exact ⟨h.1, h.2 MANAGEABLE (by decide) (by decide)⟩

/-- C8: the fully built transition table maps each (source, event) pair to at
most one destination, so process_event is deterministic. -/
theorem C8_deterministic :
    ∀ t1 ∈ machineOk.transitions, ∀ t2 ∈ machineOk.transitions,
      t1.1 = t2.1 → t1.2.1 = t2.2.1 → t1.2.2 = t2.2.2 := by
  decide

theorem C8_witness :
    (AVAILABLE, EVT_DEPLOY, DEPLOYING) ∈ machineOk.transitions ∧ DEPLOYING = DEPLOYING :=
  ⟨by decide,
   C8_deterministic (AVAILABLE, EVT_DEPLOY, DEPLOYING) (by decide)
     (AVAILABLE, EVT_DEPLOY, DEPLOYING) (by decide) rfl rfl⟩

/-- C9: every registered non-stable state carries a target that is itself a
registered stable state, and the non-stable states with their targets are
exactly deploying, deploy-wait and deploy-failed toward active, deleting
toward available, inspecting and inspect-failed toward manageable. -/
theorem C9_targets_stable :
    (∀ st ∈ machineOk.states, st.stable = false →
        st.target.map machineOk.is_valid_state = some true ∧
        st.target.map (fun t => machineOk.is_stable t) = some (Except.ok true)) ∧
    (machineOk.states.filter (fun st => !st.stable)).map (fun st => (st.name, st.target)) =
      [(DEPLOYING, some ACTIVE), (DEPLOYWAIT, some ACTIVE), (DEPLOYFAIL, some ACTIVE),
       (DELETING, some AVAILABLE), (INSPECTING, some MANAGEABLE),
       (INSPECTFAIL, some MANAGEABLE)] := by
  decide

theorem C9_witness :
    (some ACTIVE).map machineOk.is_valid_state = some true ∧
    (some ACTIVE).map (fun t => machineOk.is_stable t) = some (Except.ok true) :=
  C9_targets_stable.1 ⟨DEPLOYING, false, some ACTIVE, true, true⟩ (by decide) rfl

/-- C10: the constants DEPLOYDONE and DELETED are defined by states.py but
never registered - is_valid_state is false for both and process_event from
either of them fails with InvalidStateError for every event. -/
theorem C10_unregistered_constants :
    machineOk.is_valid_state DEPLOYDONE = false ∧
    machineOk.is_valid_state DELETED = false ∧
    (∀ e, machineOk.process_event DEPLOYDONE e = (Except.error FsmError.invalidState, [])) ∧
    (∀ e, machineOk.process_event DELETED e = (Except.error FsmError.invalidState, [])) := by
  refine ⟨by decide, by decide, ?_, ?_⟩
  · intro e
    exact processEvent_invalidState machineOk DEPLOYDONE e (by decide)
  · intro e
    exact processEvent_invalidState machineOk DELETED e (by decide)

theorem C10_witness :
    machineOk.process_event DEPLOYDONE EVT_DONE = (Except.error FsmError.invalidState, []) ∧
    machineOk.process_event DELETED EVT_DONE = (Except.error FsmError.invalidState, []) :=
  ⟨C10_unregistered_constants.2.2.1 EVT_DONE, C10_unregistered_constants.2.2.2 EVT_DONE⟩
